import Mathlib

/-!
Shallow embedding of the `Visualizer` class of
`src/src/utils/visualizer.py` and of the forecaster contract exercised by
`src/data_quality/test_data_quality.py`, from the DENGUE-FORECASTING
repository, together with theorems settling the specification claims.

Dataframes are embedded as lists of structure rows; pandas operations on
them become the corresponding list functions.  Fallible pandas operations
(parsing a malformed `year_quarter`, `iloc[-1]` on an empty frame) return
`Option`.  Python floats carrying case counts and importances are embedded
as rationals.
-/

namespace DengueViz

/-! ### Dates and quarter parsing

`pd.PeriodIndex(col, freq="Q").to_timestamp()` parses strings of the form
`"YYYYQn"` and maps each to the timestamp of the first day of that quarter
(month `3*(n-1)+1`, day 1).  We embed a timestamp as a calendar date. -/

structure Date where
  year : Int
  month : Int
  day : Int
deriving Repr, DecidableEq

/-! Character-level helpers embedding the Python string primitives the
visualizer uses (`str.strip`, `str.lower`, `str.isalnum`, splitting,
digit parsing).  They are written over `List Char` so that concrete
instances reduce inside the kernel; Unicode-only behaviour of the Python
originals outside the ASCII range is not needed by any title or
`year_quarter` value in this repository. -/

/-- ASCII whitespace as recognised by Python `str.strip()`. -/
def pyIsSpace (c : Char) : Bool :=
  c == ' ' || c == '\t' || c == '\n' || c == '\r' || c == '\x0b' || c == '\x0c'

/-- Python `str.strip()`: drop whitespace from both ends. -/
def pyStrip (cs : List Char) : List Char :=
  ((cs.dropWhile pyIsSpace).reverse.dropWhile pyIsSpace).reverse

/-- Python `str.lower()` on one ASCII character. -/
def pyLowerChar (c : Char) : Char :=
  if 'A' ≤ c && c ≤ 'Z' then Char.ofNat (c.toNat + 32) else c

/-- Split a character list on every occurrence of `sep`. -/
def splitChar (sep : Char) : List Char → List (List Char)
  | [] => [[]]
  | c :: rest =>
    let r := splitChar sep rest
    if c == sep then [] :: r
    else
      match r with
      | h :: t => (c :: h) :: t
      | [] => [[c]]

/-- Parse a non-empty all-digit character list as a natural number. -/
def digitsToNat? (cs : List Char) : Option Nat :=
  if cs.isEmpty then none
  else if cs.all (fun c => '0' ≤ c && c ≤ '9') then
    some (cs.foldl (fun n c => 10 * n + (c.toNat - '0'.toNat)) 0)
  else none

/-- Strict calendar order on dates (lexicographic year, month, day). -/
def Date.ltb (a b : Date) : Bool :=
  a.year < b.year ||
    (a.year == b.year && (a.month < b.month ||
      (a.month == b.month && a.day < b.day)))

/-- Parse a `"YYYYQn"` string the way `pd.PeriodIndex(freq="Q")` does:
year before the `Q`, quarter number 1..4 after it; anything else raises. -/
def parseYearQuarter (s : String) : Option (Int × Nat) :=
  match splitChar 'Q' s.data with
  | [y, q] =>
    match digitsToNat? y, digitsToNat? q with
    | some yr, some qn => if 1 ≤ qn && qn ≤ 4 then some ((yr : Int), qn) else none
    | _, _ => none
  | _ => none

/-- Timestamp of a quarterly period (`Period.to_timestamp()`): first day of the
quarter. -/
def quarterStartDate (s : String) : Option Date :=
  (parseYearQuarter s).map (fun p => ⟨p.1, 3 * ((p.2 : Int) - 1) + 1, 1⟩)

/-! ### Row types

A feature row carries the columns of the engineered historical frame that
the visualizer touches (`year_quarter`, `year`, `casos_est`); a forecast
row carries `year_quarter` and `predicted_casos_est`.  `add_quarter_date`
produces the same rows with a `date` column added. -/

structure FeatRow where
  year_quarter : String
  year : Int
  casos_est : ℚ
deriving Repr, DecidableEq

structure DatedRow where
  year_quarter : String
  year : Int
  casos_est : ℚ
  date : Date
deriving Repr, DecidableEq

structure ForecastRow where
  year_quarter : String
  predicted_casos_est : ℚ
deriving Repr, DecidableEq

structure DatedForecastRow where
  year_quarter : String
  predicted_casos_est : ℚ
  date : Date
deriving Repr, DecidableEq

/-- Embedding of `Visualizer.add_quarter_date` on a historical-style frame: copy the
frame and add a `date` column computed from `year_quarter`.  Returns
`none` when any `year_quarter` value fails to parse (pandas raises). -/
def add_quarter_date (df : List FeatRow) : Option (List DatedRow) :=
  df.mapM (fun r =>
    (quarterStartDate r.year_quarter).map
      (fun d => ⟨r.year_quarter, r.year, r.casos_est, d⟩))

/-- Embedding of `Visualizer.add_quarter_date` on a forecast-style frame. -/
def add_quarter_date_forecast (df : List ForecastRow) :
    Option (List DatedForecastRow) :=
  df.mapM (fun r =>
    (quarterStartDate r.year_quarter).map
      (fun d => ⟨r.year_quarter, r.predicted_casos_est, d⟩))

/-! ### Title sanitization (`plot_feature_importance`, lines 254-258)

```python
safe_title = "".join(
    c if c.isalnum() or c in ("-", "_") else "_"
    for c in title.strip().lower()
)
```
-/

/-- The per-character replacement of the generator expression. -/
def sanitizeChar (c : Char) : Char :=
  if c.isAlphanum || c == '-' || c == '_' then c else '_'

/-- The sanitizer exactly as the source computes it: strip surrounding
whitespace, lowercase, then replace disallowed characters. -/
def sanitizeTitle (title : String) : String :=
  String.mk (((pyStrip title.data).map pyLowerChar).map sanitizeChar)

/-- The filename passed to `_save_fig` by `plot_feature_importance`. -/
def featureImportanceFilename (title : String) : String :=
  "feature_importance_" ++ sanitizeTitle title ++ ".png"

/-- The sanitization rule as the claim words it (lowercase, then replace
every character that is not alphanumeric, not a hyphen and not an
underscore, with no mention of stripping). -/
def sanitizeTitleClaim (title : String) : String :=
  String.mk ((title.data.map pyLowerChar).map
    (fun c => if c.isAlphanum ∨ c = '-' ∨ c = '_' then c else '_'))

/-! ### Importance bar (`print_feature_importance`, line 281)

```python
bar = "" * int(row["Importance"] * 50)
```

The repeated string literal in the source is the *empty* string, so the
multiplication is a no-op and every printed bar is empty. -/

/-- The glyph string repeated to build the bar, exactly as in the source:
the empty string. -/
def importanceBarGlyph : String := ""

/-- Python `int()` on a rational: truncation toward zero (for a rational
in lowest terms this is T-division of numerator by denominator). -/
def pyInt (v : ℚ) : Int :=
  v.num / (v.den : Int)

/-- The bar string built for a row with importance `v`:
`importanceBarGlyph` repeated `int(v * 50)` times (Python string
repetition with a non-positive count yields the empty string). -/
def importanceBar (v : ℚ) : String :=
  String.join (List.replicate (pyInt (v * 50)).toNat importanceBarGlyph)

/-! ### `plot_actual_vs_predicted` historical filter (lines 78-90)

```python
train_hist = hist_df[
    (hist_df["year"] <= year - 1) &
    (hist_df["year"] >= year - hist_years)
]
```
-/

/-- The historical-context rows selected by `plot_actual_vs_predicted`
from the dated historical frame. -/
def avpTrainHist (year hist_years : Int) (hist_df : List DatedRow) :
    List DatedRow :=
  hist_df.filter (fun r => r.year ≤ year - 1 && year - hist_years ≤ r.year)

/-! ### `plot_forecast` data pipeline (lines 155-176)

```python
forecast_plot = self.add_quarter_date(forecast_df.copy())
hist_plot = self.add_quarter_date(historical_df.copy())
if hist_start_year:
    hist = hist_plot[hist_plot["year"] >= hist_start_year].copy()
else:
    hist = hist_plot.copy()
last_hist_date = hist["date"].iloc[-1]
last_hist_value = hist["casos_est"].iloc[-1]
forecast_connected = pd.concat([...], ignore_index=True)
```
-/

/-- Python truthiness of the optional integer `hist_start_year`
(`None` and `0` are falsy). -/
def pyTruthyInt (x : Option Int) : Bool :=
  match x with
  | none => false
  | some n => n != 0

/-- Embedding of the `if hist_start_year:` filter of `plot_forecast`. -/
def forecastHistFilter (hist_start_year : Option Int)
    (hist_plot : List DatedRow) : List DatedRow :=
  if pyTruthyInt hist_start_year then
    hist_plot.filter (fun r => hist_start_year.getD 0 ≤ r.year)
  else
    hist_plot

/-- A point of the connected forecast series: a `date` paired with a
`predicted_casos_est` value. -/
structure ConnPoint where
  date : Date
  predicted_casos_est : ℚ
deriving Repr, DecidableEq

/-- The `forecast_connected` frame of `plot_forecast`: the last row of the
filtered historical frame (its `date` and `casos_est`) prepended to the
forecast rows restricted to `date` and `predicted_casos_est`.  `iloc[-1]`
on an empty frame raises `IndexError`, embedded as `none`. -/
def forecastConnected (hist : List DatedRow)
    (forecast_plot : List DatedForecastRow) : Option (List ConnPoint) :=
  match hist.getLast? with
  | none => none
  | some last =>
    some (⟨last.date, last.casos_est⟩ ::
      forecast_plot.map (fun r => ⟨r.date, r.predicted_casos_est⟩))

/-- The data computed by `plot_forecast` before any drawing: the filtered
historical frame together with the connected forecast series.  `none`
when a `year_quarter` fails to parse or the filtered history is empty. -/
def plotForecastData (forecast_df : List ForecastRow)
    (historical_df : List FeatRow) (hist_start_year : Option Int) :
    Option (List DatedRow × List ConnPoint) := do
  let forecast_plot ← add_quarter_date_forecast forecast_df
  let hist_plot ← add_quarter_date historical_df
  let hist := forecastHistFilter hist_start_year hist_plot
  let conn ← forecastConnected hist forecast_plot
  return (hist, conn)

/-! ### Forecaster contract (`src/data_quality/test_data_quality.py`,
`test_forecast_shape`) -/

/-- A forecast dataframe: its column names together with its rows. -/
structure ForecastFrame where
  columns : List String
  rows : List ForecastRow
deriving Repr, DecidableEq

/-- Modelled from the spec: `Forecaster.refit_and_forecast`
(`src/core/forecaster.py` is referenced by the test suite but absent from
the excerpt).  Per the spec it refits the base model on allowed history —
years up to `train_max_year` and outside `exclude_years` — and "produces a
forecast dataframe with one row per target quarter" ("exactly 4 per
calendar year, one per quarter") with columns `year_quarter` and
`predicted_casos_est`, returning the forecast frame plus extras.  The base
model is abstracted as a prediction function from the training rows and
the target quarter to a value. -/
def refit_and_forecast (df_feat : List FeatRow) (feature_cols : List String)
    (base_model : List FeatRow → Int → Nat → ℚ)
    (forecast_year train_max_year : Int) (exclude_years : List Int) :
    ForecastFrame × List FeatRow × List String :=
  let train := df_feat.filter
    (fun r => r.year ≤ train_max_year && !(exclude_years.contains r.year))
  let rows := (List.range 4).map (fun q =>
    { year_quarter := toString forecast_year ++ "Q" ++ toString (q + 1),
      predicted_casos_est := base_model train forecast_year (q + 1) })
  (⟨["year_quarter", "predicted_casos_est"], rows⟩, train, feature_cols)

/-! ### Mutation model

To state that no `Visualizer` method mutates its input dataframes we embed
the object semantics of Python explicitly: dataframes live in a store of cells
addressed by references, `df.copy()` allocates a fresh cell, and in-place
column assignment (`df["col"] = ...`) overwrites a cell.  Each method is
re-embedded as a function on the store; non-mutation is the statement that
every cell that existed before the call holds the same frame afterwards. -/

/-- A test row after the assignment `plot_df["predicted"] = predictions`. -/
structure PredRow where
  year_quarter : String
  year : Int
  casos_est : ℚ
  date : Date
  predicted : ℚ
deriving Repr, DecidableEq

/-- A row of an importance frame (columns `Feature`, `Importance`). -/
structure ImportanceRow where
  feature : String
  importance : ℚ
deriving Repr, DecidableEq

/-- A dataframe value of any of the shapes the visualizer handles. -/
inductive PyFrame where
  | feat (rows : List FeatRow)
  | dated (rows : List DatedRow)
  | fcst (rows : List ForecastRow)
  | datedFcst (rows : List DatedForecastRow)
  | pred (rows : List PredRow)
  | imp (rows : List ImportanceRow)
deriving Repr, DecidableEq

structure Store where
  cells : List PyFrame
deriving Repr, DecidableEq

def Store.read (s : Store) (r : Nat) : Option PyFrame :=
  s.cells.get? r

/-- Allocation (`df.copy()` or creation of a new frame object): append a fresh cell. -/
def Store.alloc (s : Store) (v : PyFrame) : Store × Nat :=
  (⟨s.cells ++ [v]⟩, s.cells.length)

/-- In-place column assignment: overwrite the cell at `r`. -/
def Store.write (s : Store) (r : Nat) (v : PyFrame) : Store :=
  ⟨s.cells.set r v⟩

/-- Every cell that exists in `s` is unchanged in s2. -/
def Store.preserves (s s2 : Store) : Prop :=
  s2.cells.take s.cells.length = s.cells

/-- The `date`-column computation of `add_quarter_date`, on either frame
shape it is applied to. -/
def addDateFrame : PyFrame → Option PyFrame
  | .feat rs => (add_quarter_date rs).map .dated
  | .fcst rs => (add_quarter_date_forecast rs).map .datedFcst
  | _ => none

/-- Embedding of `Visualizer.add_quarter_date` on the store: `df_copy = df.copy()`,
then `df_copy["date"] = ...` mutates only the copy; returns the reference
of the copy. -/
def addQuarterDateSt (s : Store) (df : Nat) : Option (Store × Nat) := do
  let v ← s.read df
  let p := s.alloc v
  let v2 ← addDateFrame v
  return (p.1.write p.2 v2, p.2)

def asFeat : PyFrame → Option (List FeatRow)
  | .feat rs => some rs
  | _ => none

def asDated : PyFrame → Option (List DatedRow)
  | .dated rs => some rs
  | _ => none

def asDatedFcst : PyFrame → Option (List DatedForecastRow)
  | .datedFcst rs => some rs
  | _ => none

def asImp : PyFrame → Option (List ImportanceRow)
  | .imp rs => some rs
  | _ => none

/-- Embedding of `plot_df["predicted"] = predictions`: positional assignment of the
predictions onto the test rows (lengths must agree). -/
def assignPredicted (rs : List DatedRow) (preds : List ℚ) :
    Option (List PredRow) :=
  if rs.length = preds.length then
    some ((rs.zip preds).map
      (fun p => ⟨p.1.year_quarter, p.1.year, p.1.casos_est, p.1.date, p.2⟩))
  else none

/-- The dataframe traffic of `plot_actual_vs_predicted` on the store:
copy the test frame, date it, assign the `predicted` column to the copy;
when a historical frame is given, copy and date it and select the
training-context rows (a boolean mask builds a new frame, mutating
nothing).  Drawing and saving are not data operations. -/
def plotActualVsPredictedSt (s : Store) (test_df : Nat)
    (predictions : List ℚ) (year : Int) (historical_df : Option Nat)
    (hist_years : Int) : Option Store := do
  let tv ← s.read test_df
  let p1 := s.alloc tv
  let r1 ← addQuarterDateSt p1.1 p1.2
  let pv ← r1.1.read r1.2
  let prows ← asDated pv
  let prrows ← assignPredicted prows predictions
  let s3 := r1.1.write r1.2 (.pred prrows)
  match historical_df with
  | none => return s3
  | some h => do
    let hv ← s3.read h
    let p2 := s3.alloc hv
    let r2 ← addQuarterDateSt p2.1 p2.2
    let hv2 ← r2.1.read r2.2
    let hrows ← asDated hv2
    let train := avpTrainHist year hist_years hrows
    return (r2.1.alloc (.dated train)).1

/-- The dataframe traffic of `plot_forecast` on the store: copy and date
the forecast and historical frames, filter history (the `.copy()` after
the mask allocates a new frame), anchor the connected forecast at the
last historical row (raising when history is empty). -/
def plotForecastSt (s : Store) (forecast_df historical_df : Nat)
    (hist_start_year : Option Int) : Option Store := do
  let fv ← s.read forecast_df
  let p1 := s.alloc fv
  let r1 ← addQuarterDateSt p1.1 p1.2
  let hv ← r1.1.read historical_df
  let p2 := r1.1.alloc hv
  let r2 ← addQuarterDateSt p2.1 p2.2
  let hpv ← r2.1.read r2.2
  let hrows ← asDated hpv
  let hist := forecastHistFilter hist_start_year hrows
  let p3 := r2.1.alloc (.dated hist)
  let fpv ← p3.1.read r1.2
  let frows ← asDatedFcst fpv
  let _ ← forecastConnected hist frows
  return p3.1

/-- The dataframe traffic of `plot_feature_importance` on the store: the
importance frame is only read (by `ax.barh`); the result is the saved
filename. -/
def plotFeatureImportanceSt (s : Store) (importance_df : Nat)
    (title : String) : Option (Store × String) := do
  let v ← s.read importance_df
  let _ ← asImp v
  return (s, featureImportanceFilename title)

/-- The dataframe traffic of `print_feature_importance` on the store: the
frame is only iterated; per row the feature name and its bar are emitted
(the fixed-width numeric rendering of the importance value is
presentation only and elided). -/
def printFeatureImportanceSt (s : Store) (importance_df : Nat) :
    Option (Store × List (String × String)) := do
  let v ← s.read importance_df
  let rows ← asImp v
  return (s, rows.map (fun r => (r.feature, importanceBar r.importance)))

/-! ### Figure lifecycle model

Each plotting method is a straight-line sequence of effects on the global
matplotlib state: opening a figure (`plt.subplots`), data computations
that may raise, `savefig` (which may raise, e.g. on an I/O error), and a
final `plt.show()` or `plt.close()` chosen by `show_plots`.  An exception
aborts the remaining steps, exactly as in Python where the methods have
no try/finally.  The state is the number of open figures. -/

inductive PlotStep where
  | subplots
  | compute (ok : Bool)
  | savefig (ok : Bool)
  | pltShow
  | pltClose
deriving Repr, DecidableEq

/-- Run the steps from `n` open figures; the Bool is true when no step
raised.  A raising step stops execution, leaving figures as they are. -/
def runSteps : List PlotStep → Nat → Nat × Bool
  | [], n => (n, true)
  | .subplots :: rest, n => runSteps rest (n + 1)
  | .compute ok :: rest, n => if ok then runSteps rest n else (n, false)
  | .savefig ok :: rest, n => if ok then runSteps rest n else (n, false)
  | .pltShow :: rest, n => runSteps rest n
  | .pltClose :: rest, n => runSteps rest (n - 1)

/-- Embedding of `if self.show_plots: plt.show() else: plt.close()`. -/
def tailSteps (show_plots : Bool) : List PlotStep :=
  if show_plots then [.pltShow] else [.pltClose]

/-- Step sequence of `plot_actual_vs_predicted`: test-frame preparation
precedes `plt.subplots`; the historical preparation (which can raise on a
malformed frame) happens after the figure exists; then `savefig` and the
show/close tail. -/
def plotAvpSteps (test_df : List FeatRow) (predictions : List ℚ)
    (year hist_years : Int) (historical_df : Option (List FeatRow))
    (saveOk show_plots : Bool) : List PlotStep :=
  let prepOk := (do
    let pd ← add_quarter_date test_df
    assignPredicted pd predictions).isSome
  let histOk :=
    match historical_df with
    | none => true
    | some h => ((add_quarter_date h).map
        (avpTrainHist year hist_years)).isSome
  [.compute prepOk, .subplots, .compute histOk, .savefig saveOk] ++
    tailSteps show_plots

/-- Step sequence of `plot_forecast`: all data preparation (dating both
frames, filtering, anchoring at the last historical row) precedes
`plt.subplots`; then `savefig` and the show/close tail. -/
def plotForecastSteps (forecast_df : List ForecastRow)
    (historical_df : List FeatRow) (hist_start_year : Option Int)
    (saveOk show_plots : Bool) : List PlotStep :=
  [.compute (plotForecastData forecast_df historical_df
      hist_start_year).isSome,
   .subplots, .savefig saveOk] ++ tailSteps show_plots

/-- Step sequence of `plot_feature_importance`: figure first, then
`savefig` and the show/close tail. -/
def plotFeatureImportanceSteps (saveOk show_plots : Bool) :
    List PlotStep :=
  [.subplots, .savefig saveOk] ++ tailSteps show_plots

/-! ### Statements of amended claims and concrete test frames -/

/-- The sanitization rule amended to match the source: strip surrounding
whitespace first, then lowercase and replace every character that is not
alphanumeric, not a hyphen and not an underscore by an underscore. -/
def sanitizeTitleAmended (title : String) : String :=
  String.mk (((pyStrip title.data).map pyLowerChar).map
    (fun c => if c.isAlphanum ∨ c = '-' ∨ c = '_' then c else '_'))

/-- The `date` column of a dated frame is strictly increasing. -/
def datesAscending : List DatedRow → Bool
  | a :: b :: rest => a.date.ltb b.date && datesAscending (b :: rest)
  | _ => true

/-- A frame whose `year_quarter` column holds `"2025Q1" .. "2025Q4"`. -/
def frameC7 : List FeatRow :=
  [⟨"2025Q1", 2025, 0⟩, ⟨"2025Q2", 2025, 0⟩,
   ⟨"2025Q3", 2025, 0⟩, ⟨"2025Q4", 2025, 0⟩]

/-- The dated frame `add_quarter_date` produces from `frameC7`. -/
def datedC7 : List DatedRow :=
  [⟨"2025Q1", 2025, 0, ⟨2025, 1, 1⟩⟩, ⟨"2025Q2", 2025, 0, ⟨2025, 4, 1⟩⟩,
   ⟨"2025Q3", 2025, 0, ⟨2025, 7, 1⟩⟩, ⟨"2025Q4", 2025, 0, ⟨2025, 10, 1⟩⟩]

/-- A concrete store holding a test frame, an importance frame, a
forecast frame and a historical frame (references 0..3). -/
def storeW : Store :=
  ⟨[.feat [⟨"2025Q1", 2025, 4⟩], .imp [⟨"lag1", 1⟩],
    .fcst [⟨"2026Q1", 7⟩], .feat [⟨"2024Q4", 2024, 2⟩]]⟩

/-- The store after `add_quarter_date` on reference 0 of `storeW`: one
new cell, the dated copy; cells 0..3 untouched. -/
def storeWadd : Store :=
  ⟨storeW.cells ++ [.dated [⟨"2025Q1", 2025, 4, ⟨2025, 1, 1⟩⟩]]⟩

/-- The store after `plot_actual_vs_predicted` on references 0 (test)
and 3 (historical) of `storeW`: five new cells (test copy, dated copy
carrying the `predicted` column, historical copy, dated historical, and
the selected training context); cells 0..3 untouched. -/
def storeWavp : Store :=
  ⟨storeW.cells ++
    [.feat [⟨"2025Q1", 2025, 4⟩],
     .pred [⟨"2025Q1", 2025, 4, ⟨2025, 1, 1⟩, 6⟩],
     .feat [⟨"2024Q4", 2024, 2⟩],
     .dated [⟨"2024Q4", 2024, 2, ⟨2024, 10, 1⟩⟩],
     .dated [⟨"2024Q4", 2024, 2, ⟨2024, 10, 1⟩⟩]]⟩

/-- The store after `plot_forecast` on references 2 (forecast) and 3
(historical) of `storeW`: five new cells; cells 0..3 untouched. -/
def storeWfc : Store :=
  ⟨storeW.cells ++
    [.fcst [⟨"2026Q1", 7⟩],
     .datedFcst [⟨"2026Q1", 7, ⟨2026, 1, 1⟩⟩],
     .feat [⟨"2024Q4", 2024, 2⟩],
     .dated [⟨"2024Q4", 2024, 2, ⟨2024, 10, 1⟩⟩],
     .dated [⟨"2024Q4", 2024, 2, ⟨2024, 10, 1⟩⟩]]⟩

/-! ## Theorems -/

theorem join_replicate_empty : ∀ n : Nat, String.join (List.replicate n "") = "" := by
  intro n
  induction n with
  | zero => rfl
  | succ k ih =>
    simp [List.replicate, String.join] at *
    simpa [String.join] using ih

/-- C1: the claim says the bar printed by `print_feature_importance` for
a row with importance `v` has length `floor(v * 50)`.  The source
multiplies the *empty* string (`bar = "" * int(row["Importance"] * 50)`),
so every printed bar has length 0 — while the intended repetition count at
importance `1/2` is `int(0.5 * 50) = 25`.  The claim matches the evident
intent (a proportional text bar, the glyph having been lost from the
literal); the code is the slip. -/
theorem print_feature_importance_bar_always_empty :
    (∀ v : ℚ, (importanceBar v).length = 0) ∧ pyInt ((1 : ℚ) / 2 * 50) = 25 := by
  constructor
  · intro v
    simp [importanceBar, importanceBarGlyph, join_replicate_empty]
  · norm_num [pyInt]

/-- C2 counterexample: the rule of the claim (lowercase, then replace
disallowed characters) disagrees with the code on any title with leading
or trailing whitespace, because the code strips it first: for the title
`"a "` the code produces `"a"` while the claimed rule produces `"a_"`. -/
theorem sanitize_title_claim_cex :
    sanitizeTitle "a " = "a" ∧ sanitizeTitleClaim "a " = "a_" ∧
      sanitizeTitle "a " ≠ sanitizeTitleClaim "a " :=
  ⟨by decide, by decide, by decide⟩

/-- C2 amended: `plot_feature_importance` derives the filename fragment
by stripping surrounding whitespace, lowercasing, and replacing every
character that is not alphanumeric, not a hyphen and not an underscore
with an underscore; in particular `"Top 10!"` yields `top_10_` and the
image is saved as `feature_importance_top_10_.png`. -/
theorem sanitize_title_amended :
    (∀ t, sanitizeTitle t = sanitizeTitleAmended t) ∧
      sanitizeTitle "Top 10!" = "top_10_" ∧
      featureImportanceFilename "Top 10!" = "feature_importance_top_10_.png" := by
  refine ⟨?_, by decide, by decide⟩
  intro t
  unfold sanitizeTitle sanitizeTitleAmended
  congr 1
  apply List.map_congr_left
  intro c _
  simp [sanitizeChar, or_assoc]

/-- C3: `refit_and_forecast` with `forecast_year = 2026`,
`train_max_year = 2025`, `exclude_years = [2024]` yields a forecast frame
with exactly 4 rows (one per quarter) whose columns include
`year_quarter` and `predicted_casos_est`, for every feature frame, every
feature-column list and every base model. -/
theorem refit_and_forecast_shape_2026 :
    ∀ (df_feat : List FeatRow) (feature_cols : List String)
      (base_model : List FeatRow → Int → Nat → ℚ),
      (refit_and_forecast df_feat feature_cols base_model
          2026 2025 [2024]).1.rows.length = 4 ∧
      "year_quarter" ∈ (refit_and_forecast df_feat feature_cols base_model
          2026 2025 [2024]).1.columns ∧
      "predicted_casos_est" ∈ (refit_and_forecast df_feat feature_cols
          base_model 2026 2025 [2024]).1.columns := by
  intro df fc bm
  refine ⟨?_, by simp [refit_and_forecast], by simp [refit_and_forecast]⟩
  simp [refit_and_forecast]

/-- C6: in `plot_actual_vs_predicted` the historical-context series
consists of exactly the rows of the dated historical frame whose `year`
lies in the closed interval `[year - hist_years, year - 1]`. -/
theorem plot_avp_train_hist_interval :
    ∀ (year hist_years : Int) (hist_df : List DatedRow) (r : DatedRow),
      r ∈ avpTrainHist year hist_years hist_df ↔
        r ∈ hist_df ∧ year - hist_years ≤ r.year ∧ r.year ≤ year - 1 := by
  intro y hy df r
  simp [avpTrainHist, List.mem_filter, and_comm]

/-- C7: `add_quarter_date` on a frame with `year_quarter` values
`"2025Q1" .. "2025Q4"` produces a `date` column that is strictly
monotonically increasing, one timestamp per quarter boundary
(2025-01-01, 2025-04-01, 2025-07-01, 2025-10-01). -/
theorem add_quarter_date_2025_monotone :
    add_quarter_date frameC7 = some datedC7 ∧ datesAscending datedC7 = true :=
  ⟨by decide, by decide⟩

/-- C9 counterexample: the plotting methods have no try/finally, so an
exception in `savefig` is an exit path on which the figure is not closed
even with `show_plots = false`: `plot_feature_importance` with a failing
save leaves 1 open figure, refuting "closes the figure on every exit
path, including exceptional exits". -/
theorem figure_leak_on_save_failure_cex :
    runSteps (plotFeatureImportanceSteps false false) 0 = (1, false) := by
  decide

/-- C9 amended: each plotting method closes its figure when
`show_plots` is false on every *normal* exit path (when the data
preparation and `savefig` succeed); on an exceptional exit after figure
creation the figure is not closed. -/
theorem figure_closed_on_normal_exit :
    ∀ (test_df : List FeatRow) (predictions : List ℚ) (year hist_years : Int)
      (historical_df : Option (List FeatRow)) (fdf : List ForecastRow)
      (hdf : List FeatRow) (hso : Option Int),
      ((do
        let pd ← add_quarter_date test_df
        assignPredicted pd predictions) : Option (List PredRow)).isSome = true →
      (match historical_df with
        | none => true
        | some h =>
          ((add_quarter_date h).map (avpTrainHist year hist_years)).isSome) = true →
      (plotForecastData fdf hdf hso).isSome = true →
      runSteps (plotAvpSteps test_df predictions year hist_years historical_df
          true false) 0 = (0, true) ∧
      runSteps (plotForecastSteps fdf hdf hso true false) 0 = (0, true) ∧
      runSteps (plotFeatureImportanceSteps true false) 0 = (0, true) := by
  intro t preds y hy hopt fdf hdf hso h1 h2 h3
  refine ⟨?_, ?_, by decide⟩
  · simp only [plotAvpSteps, tailSteps]
    rw [h1, h2]
    simp [runSteps]
  · simp only [plotForecastSteps, tailSteps]
    rw [h3]
    simp [runSteps]

/-- C9 witness: concrete well-formed frames on which all three methods
run their normal path and end with every figure closed. -/
theorem figure_closed_on_normal_exit_witness :
    runSteps (plotAvpSteps [⟨"2025Q1", 2025, 4⟩] [6] 2025 2
        (some [⟨"2024Q4", 2024, 2⟩]) true false) 0 = (0, true) ∧
    runSteps (plotForecastSteps [⟨"2026Q1", 7⟩] [⟨"2025Q4", 2025, 3⟩] none
        true false) 0 = (0, true) ∧
    runSteps (plotFeatureImportanceSteps true false) 0 = (0, true) :=
  figure_closed_on_normal_exit [⟨"2025Q1", 2025, 4⟩] [6] 2025 2
    (some [⟨"2024Q4", 2024, 2⟩]) [⟨"2026Q1", 7⟩] [⟨"2025Q4", 2025, 3⟩] none
    (by decide) (by decide) (by decide)

/-- C10: in `plot_forecast`, `hist_start_year = 0` behaves identically to
`hist_start_year = None` — no historical filtering happens for either —
and the `year >= hist_start_year` restriction is applied exactly for
truthy (non-zero) values. -/
theorem plot_forecast_hist_start_year_zero_as_none :
    (∀ (fdf : List ForecastRow) (hdf : List FeatRow),
        plotForecastData fdf hdf (some 0) = plotForecastData fdf hdf none) ∧
    (∀ h : List DatedRow,
        forecastHistFilter (some 0) h = h ∧ forecastHistFilter none h = h) ∧
    (∀ (y : Int) (h : List DatedRow), y ≠ 0 →
        forecastHistFilter (some y) h = h.filter (fun r => y ≤ r.year)) := by
  refine ⟨?_, ?_, ?_⟩
  · intro fdf hdf
    simp [plotForecastData, forecastHistFilter, pyTruthyInt]
  · intro h
    exact ⟨by simp [forecastHistFilter, pyTruthyInt],
      by simp [forecastHistFilter, pyTruthyInt]⟩
  · intro y h hy
    simp [forecastHistFilter, pyTruthyInt, hy]

/-- C4: `plot_forecast` fails — the pipeline yields no value, as
`hist["date"].iloc[-1]` raises `IndexError` — whenever the historical
frame, after the optional `hist_start_year` filtering, is empty, even
when both input frames themselves parse fine. -/
theorem plot_forecast_empty_history_raises :
    ∀ (fdf : List ForecastRow) (hdf : List FeatRow) (hso : Option Int)
      (fp : List DatedForecastRow) (hp : List DatedRow),
      add_quarter_date_forecast fdf = some fp →
      add_quarter_date hdf = some hp →
      forecastHistFilter hso hp = [] →
      plotForecastData fdf hdf hso = none := by
  intro fdf hdf hso fp hp hf hh hfil
  simp [plotForecastData, hf, hh, hfil, forecastConnected]

/-- C4 witness: a one-row 2025 history filtered from 2030 on is empty and
the data pipeline of `plot_forecast` fails on it. -/
theorem plot_forecast_empty_history_witness :
    plotForecastData [⟨"2026Q1", 5⟩] [⟨"2025Q1", 2025, 1⟩] (some 2030) = none :=
  plot_forecast_empty_history_raises _ _ _
    [⟨"2026Q1", 5, ⟨2026, 1, 1⟩⟩] [⟨"2025Q1", 2025, 1, ⟨2025, 1, 1⟩⟩]
    (by decide) (by decide) (by decide)

/-- C5: whenever the data pipeline of `plot_forecast` succeeds, the connected
forecast series starts exactly at the last row of the (filtered) dated
historical frame — its `date` paired with its `casos_est` — and continues
with the forecast rows in their original order. -/
theorem plot_forecast_connected_starts_at_last_hist :
    ∀ (fdf : List ForecastRow) (hdf : List FeatRow) (hso : Option Int)
      (hist : List DatedRow) (conn : List ConnPoint),
      plotForecastData fdf hdf hso = some (hist, conn) →
      ∃ last, hist.getLast? = some last ∧
        conn.head? = some ⟨last.date, last.casos_est⟩ ∧
        ∃ fp, add_quarter_date_forecast fdf = some fp ∧
          conn.tail = fp.map (fun r => ⟨r.date, r.predicted_casos_est⟩) := by
  intro fdf hdf hso hist conn h
  cases hf : add_quarter_date_forecast fdf with
  | none => rw [plotForecastData, hf] at h; simp at h
  | some fp =>
    cases hh : add_quarter_date hdf with
    | none => rw [plotForecastData, hf, hh] at h; simp at h
    | some hp =>
      rw [plotForecastData, hf, hh] at h
      simp at h
      cases hl : (forecastHistFilter hso hp).getLast? with
      | none => rw [forecastConnected, hl] at h; simp at h
      | some last =>
        rw [forecastConnected, hl] at h
        simp at h
        obtain ⟨h1, h2⟩ := h
        refine ⟨last, ?_, ?_, fp, rfl, ?_⟩
        · rw [← h1]; exact hl
        · rw [← h2]; rfl
        · rw [← h2]; rfl

/-- C5 witness: on a concrete two-quarter forecast after a one-row
history the connected series starts at (2025-10-01, 3). -/
theorem plot_forecast_connected_witness :
    ∃ last, [(⟨"2025Q4", 2025, 3, ⟨2025, 10, 1⟩⟩ : DatedRow)].getLast? = some last ∧
      ([⟨⟨2025, 10, 1⟩, 3⟩, ⟨⟨2026, 1, 1⟩, 7⟩,
        (⟨⟨2026, 4, 1⟩, 8⟩ : ConnPoint)].head? : Option ConnPoint) =
          some ⟨last.date, last.casos_est⟩ ∧
      ∃ fp, add_quarter_date_forecast [⟨"2026Q1", 7⟩, ⟨"2026Q2", 8⟩] = some fp ∧
        List.tail [⟨⟨2025, 10, 1⟩, 3⟩, ⟨⟨2026, 1, 1⟩, 7⟩,
            (⟨⟨2026, 4, 1⟩, 8⟩ : ConnPoint)] =
          fp.map (fun r => ⟨r.date, r.predicted_casos_est⟩) :=
  plot_forecast_connected_starts_at_last_hist
    [⟨"2026Q1", 7⟩, ⟨"2026Q2", 8⟩] [⟨"2025Q4", 2025, 3⟩] none
    [⟨"2025Q4", 2025, 3, ⟨2025, 10, 1⟩⟩]
    [⟨⟨2025, 10, 1⟩, 3⟩, ⟨⟨2026, 1, 1⟩, 7⟩, ⟨⟨2026, 4, 1⟩, 8⟩]
    (by decide)

theorem store_preserves_of_cells {s s2 : Store} (tail : List PyFrame)
    (h : s2.cells = s.cells ++ tail) : s.preserves s2 := by
  rw [Store.preserves, h]
  exact List.take_left ..

theorem store_read_concat (l : List PyFrame) (a : PyFrame) :
    (Store.mk (l ++ [a])).read l.length = some a := by
  simp [Store.read]

theorem addQuarterDateSt_eq {s : Store} {df : Nat} {out : Store × Nat}
    (h : addQuarterDateSt s df = some out) :
    ∃ v v2, s.read df = some v ∧ addDateFrame v = some v2 ∧
      out.1 = ⟨s.cells ++ [v2]⟩ ∧ out.2 = s.cells.length := by
  cases hv : s.read df with
  | none => rw [addQuarterDateSt, hv] at h; simp at h
  | some v =>
    cases hv2 : addDateFrame v with
    | none => rw [addQuarterDateSt, hv] at h; simp [hv2] at h
    | some v2 =>
      rw [addQuarterDateSt, hv] at h
      simp [hv2] at h
      refine ⟨v, v2, by simp [hv], by simp [hv2], ?_, ?_⟩
      · rw [← h]
        simp [Store.alloc, Store.write, List.set_append]
      · rw [← h]
        simp [Store.alloc]

theorem plotAvp_preserves :
    ∀ (s : Store) (t : Nat) (preds : List ℚ) (y : Int) (hopt : Option Nat)
      (hy : Int) (s2 : Store),
      plotActualVsPredictedSt s t preds y hopt hy = some s2 → s.preserves s2 := by
  intro s t preds y hopt hy s2 h
  cases htv : s.read t with
  | none => rw [plotActualVsPredictedSt, htv] at h; simp at h
  | some tv =>
    rw [plotActualVsPredictedSt, htv] at h
    simp at h
    cases hq : addQuarterDateSt (s.alloc tv).1 (s.alloc tv).2 with
    | none => rw [hq] at h; simp at h
    | some r1 =>
      rw [hq] at h
      simp at h
      obtain ⟨v, v2, hrv, hv2, hr1, hrr⟩ := addQuarterDateSt_eq hq
      rw [hr1, hrr] at h
      rw [store_read_concat] at h
      simp at h
      cases hd : asDated v2 with
      | none => rw [hd] at h; simp at h
      | some prows =>
        rw [hd] at h
        simp at h
        cases hp : assignPredicted prows preds with
        | none => rw [hp] at h; simp at h
        | some prrows =>
          rw [hp] at h
          simp at h
          cases hopt with
          | none =>
            simp at h
            refine store_preserves_of_cells [tv, .pred prrows] ?_
            rw [← h]
            simp [Store.write, Store.alloc, List.set_append]
          | some href =>
            simp at h
            generalize hs3 : ({ cells := (s.alloc tv).1.cells ++ [v2] } : Store).write (s.alloc tv).1.cells.length (PyFrame.pred prrows) = s3 at h
            have hs3c : s3.cells = s.cells ++ [tv, PyFrame.pred prrows] := by
              rw [← hs3]
              simp [Store.write, Store.alloc, List.set_append]
            cases hread : s3.read href with
            | none => rw [hread] at h; simp at h
            | some hv =>
              rw [hread] at h
              simp at h
              cases hq2 : addQuarterDateSt (s3.alloc hv).1 (s3.alloc hv).2 with
              | none => rw [hq2] at h; simp at h
              | some r2 =>
                rw [hq2] at h
                simp at h
                obtain ⟨w, w2, hrw, hw2, hr2, hrr2⟩ := addQuarterDateSt_eq hq2
                rw [hr2, hrr2] at h
                rw [store_read_concat] at h
                simp at h
                cases hd2 : asDated w2 with
                | none => rw [hd2] at h; simp at h
                | some hrows =>
                  rw [hd2] at h
                  simp at h
                  refine store_preserves_of_cells
                    [tv, .pred prrows, hv, w2, .dated (avpTrainHist y hy hrows)] ?_
                  rw [← h]
                  simp [Store.alloc, hs3c]

theorem plotForecast_preserves :
    ∀ (s : Store) (f hℓ : Nat) (hso : Option Int) (s2 : Store),
      plotForecastSt s f hℓ hso = some s2 → s.preserves s2 := by
  intro s f hl hso s2 h
  cases hfv : s.read f with
  | none => rw [plotForecastSt, hfv] at h; simp at h
  | some fv =>
    rw [plotForecastSt, hfv] at h
    simp at h
    cases hq : addQuarterDateSt (s.alloc fv).1 (s.alloc fv).2 with
    | none => rw [hq] at h; simp at h
    | some r1 =>
      rw [hq] at h
      simp at h
      obtain ⟨v, v2, hrv, hv2, hr1, hrr⟩ := addQuarterDateSt_eq hq
      rw [hr1, hrr] at h
      cases hhv : (⟨(s.alloc fv).1.cells ++ [v2]⟩ : Store).read hl with
      | none => rw [hhv] at h; simp at h
      | some hv =>
        rw [hhv] at h
        simp at h
        cases hq2 : addQuarterDateSt ((⟨(s.alloc fv).1.cells ++ [v2]⟩ : Store).alloc hv).1 ((⟨(s.alloc fv).1.cells ++ [v2]⟩ : Store).alloc hv).2 with
        | none => rw [hq2] at h; simp at h
        | some r2 =>
          rw [hq2] at h
          simp at h
          obtain ⟨w, w2, hrw, hw2, hr2, hrr2⟩ := addQuarterDateSt_eq hq2
          rw [hr2, hrr2] at h
          rw [store_read_concat] at h
          simp at h
          cases hd2 : asDated w2 with
          | none => rw [hd2] at h; simp at h
          | some hrows =>
            rw [hd2] at h
            simp at h
            cases hfp : (({ cells := (({ cells := (s.alloc fv).1.cells ++ [v2] } : Store).alloc hv).1.cells ++ [w2] } : Store).alloc (PyFrame.dated (forecastHistFilter hso hrows))).1.read (s.alloc fv).1.cells.length with
            | none => rw [hfp] at h; simp at h
            | some fpv =>
              rw [hfp] at h
              simp at h
              cases hfr : asDatedFcst fpv with
              | none => rw [hfr] at h; simp at h
              | some frows =>
                rw [hfr] at h
                simp at h
                cases hc : forecastConnected (forecastHistFilter hso hrows) frows with
                | none => rw [hc] at h; simp at h
                | some conn =>
                  rw [hc] at h
                  simp at h
                  refine store_preserves_of_cells
                    [fv, v2, hv, w2, .dated (forecastHistFilter hso hrows)] ?_
                  rw [← h]
                  simp [Store.alloc]

/-- C8: no `Visualizer` method mutates its input dataframes.  In the
store model of Python object semantics, every cell present before a call
to `add_quarter_date`, `plot_actual_vs_predicted`, `plot_forecast`,
`plot_feature_importance` or `print_feature_importance` holds the same
frame after it: the first three only write to freshly copied frames
(`add_quarter_date` returns a copy with the added `date` column), the
last two only read. -/
theorem visualizer_no_mutation :
    (∀ (s : Store) (df : Nat) (out : Store × Nat),
        addQuarterDateSt s df = some out → s.preserves out.1) ∧
    (∀ (s : Store) (t : Nat) (preds : List ℚ) (y : Int) (hopt : Option Nat)
        (hy : Int) (s2 : Store),
        plotActualVsPredictedSt s t preds y hopt hy = some s2 →
          s.preserves s2) ∧
    (∀ (s : Store) (f hℓ : Nat) (hso : Option Int) (s2 : Store),
        plotForecastSt s f hℓ hso = some s2 → s.preserves s2) ∧
    (∀ (s : Store) (df : Nat) (title : String) (out : Store × String),
        plotFeatureImportanceSt s df title = some out → out.1 = s) ∧
    (∀ (s : Store) (df : Nat) (out : Store × List (String × String)),
        printFeatureImportanceSt s df = some out → out.1 = s) := by
  refine ⟨?_, plotAvp_preserves, plotForecast_preserves, ?_, ?_⟩
  · intro s df out h
    obtain ⟨v, v2, _, _, h1, _⟩ := addQuarterDateSt_eq h
    exact store_preserves_of_cells [v2] (by rw [h1])
  · intro s df title out h
    cases hv : s.read df with
    | none => rw [plotFeatureImportanceSt, hv] at h; simp at h
    | some v =>
      rw [plotFeatureImportanceSt, hv] at h
      simp at h
      cases hi : asImp v with
      | none => rw [hi] at h; simp at h
      | some rows =>
        rw [hi] at h
        simp at h
        rw [← h]
  · intro s df out h
    cases hv : s.read df with
    | none => rw [printFeatureImportanceSt, hv] at h; simp at h
    | some v =>
      rw [printFeatureImportanceSt, hv] at h
      simp at h
      cases hi : asImp v with
      | none => rw [hi] at h; simp at h
      | some rows =>
        rw [hi] at h
        simp at h
        rw [← h]

/-- C8 witness: each method run on the concrete `storeW` succeeds and
leaves every pre-existing cell unchanged. -/
theorem visualizer_no_mutation_witness :
    (addQuarterDateSt storeW 0 = some (storeWadd, 4) ∧
      storeW.preserves storeWadd) ∧
    (plotActualVsPredictedSt storeW 0 [6] 2025 (some 3) 2 = some storeWavp ∧
      storeW.preserves storeWavp) ∧
    (plotForecastSt storeW 2 3 none = some storeWfc ∧
      storeW.preserves storeWfc) ∧
    plotFeatureImportanceSt storeW 1 "T" =
      some (storeW, "feature_importance_t.png") ∧
    printFeatureImportanceSt storeW 1 =
      some (storeW, [("lag1", importanceBar 1)]) :=
  ⟨⟨by decide, visualizer_no_mutation.1 storeW 0 (storeWadd, 4) (by decide)⟩,
   ⟨by decide, visualizer_no_mutation.2.1 storeW 0 [6] 2025 (some 3) 2
      storeWavp (by decide)⟩,
   ⟨by decide, visualizer_no_mutation.2.2.1 storeW 2 3 none storeWfc
      (by decide)⟩,
   by rfl, by rfl⟩

/-- C10 witness: the truthy filter applied at the concrete start year
2020 on a two-row history keeps exactly the rows from 2020 on. -/
theorem plot_forecast_hist_start_year_witness :
    forecastHistFilter (some 2020)
        [⟨"2019Q4", 2019, 1, ⟨2019, 10, 1⟩⟩, ⟨"2020Q1", 2020, 2, ⟨2020, 1, 1⟩⟩] =
      List.filter (fun r => decide (2020 ≤ r.year))
        [⟨"2019Q4", 2019, 1, ⟨2019, 10, 1⟩⟩, ⟨"2020Q1", 2020, 2, ⟨2020, 1, 1⟩⟩] :=
  plot_forecast_hist_start_year_zero_as_none.2.2 2020
    [⟨"2019Q4", 2019, 1, ⟨2019, 10, 1⟩⟩, ⟨"2020Q1", 2020, 2, ⟨2020, 1, 1⟩⟩]
    (by decide)

end DengueViz
